import Mathlib

/-!
# Ditherizer palette-reduction pipeline: shallow embedding and verification

This file embeds the palette-reduction and dithering pipeline of the
`ditherizer` repository in Lean 4 and proves properties of the embedding.

The embedded sources are:
* `src/lib/image/ditherClient.ts` — the client-side (foreground) pipeline:
  `orderedDither`, `resolveColorReduction`, `resizeImageData` (dimension
  computation), and `applyPaletteDitherClient`.
* the web-worker pipeline (same module shape, `self.onmessage`) — embedded
  separately under the `Worker` namespace for the equivalence claim.
* `src/lib/image/dither.ts` — the batch entry point `applyPaletteDither`
  with its validation and manual-palette handling (`createManualPalette`).

Host and third-party services (canvas resampling, the `image-q` palette
builder and Floyd–Steinberg mapper, PNG encoding) are parameters of the
embedding: the pipeline functions take them as explicit function arguments.
The nearest-color palette mapper (`image-q`'s `'nearest'` image
quantization), which the repository only calls, is modelled from the spec.

JavaScript numeric semantics used by the source are made explicit:
`Math.round x` is `⌊x + 1/2⌋` (round half toward +∞), and numbers are
modelled as rationals.
-/

/-- JavaScript `Math.round`: round half toward positive infinity. -/
def jsRound (q : ℚ) : ℤ := ⌊q + 1/2⌋

/-- `clamp(value, min, max) = Math.min(max, Math.max(min, value))` from
`ditherClient.ts`. -/
def jsClamp (value lo hi : ℚ) : ℚ := min hi (max lo value)

/-- `clamp8(value) = Math.max(0, Math.min(255, Math.round(value)))` from
`ditherClient.ts` / `dither.ts`. -/
def clamp8 (value : ℚ) : ℕ := (max 0 (min 255 (jsRound value))).toNat

/-- The fixed 4×4 Bayer matrix `BAYER_4X4` from `ditherClient.ts`. -/
def BAYER_4X4 : List (List ℕ) :=
  [[0, 8, 2, 10], [12, 4, 14, 6], [3, 11, 1, 9], [15, 7, 13, 5]]

/-- `BAYER_4X4[y % 4][x % 4]` as a rational. -/
def bayerAt (x y : ℕ) : ℚ :=
  ((BAYER_4X4.getD (y % 4) []).getD (x % 4) 0 : ℕ)

/-- The per-pixel threshold
`(BAYER_4X4[y % 4][x % 4] / thresholdScale - 0.5) * thresholdBias` with
`thresholdScale = 16`, `thresholdBias = 24` (`orderedDither` body). -/
def bayerThreshold (x y : ℕ) : ℚ := (bayerAt x y / 16 - 1/2) * 24

/-- `orderedDither(pixels, width, height)` from `ditherClient.ts`.

The source allocates `output = new Uint8ClampedArray(pixels.length)`
(all zeros) and, for each `y < height`, `x < width`, writes
`output[(y*width+x)*4 + k]` for `k = 0,1,2,3`: channels 0–2 get
`clamp8(pixels[index+k] + threshold)` and channel 3 copies the input.
Each index `i < width*height*4` is written exactly once, by the iteration
with `y = i/4/width`, `x = i/4 % width`, `k = i % 4`; indices at or beyond
`width*height*4` keep their zero initialisation.  The embedding produces
the output buffer index by index accordingly. -/
def orderedDither (pixels : List ℕ) (width height : ℕ) : List ℕ :=
  (List.range pixels.length).map fun i =>
    if i < width * height * 4 then
      if i % 4 = 3 then pixels.getD i 0
      else clamp8 ((pixels.getD i 0 : ℚ) + bayerThreshold (i / 4 % width) (i / 4 / width))
    else 0

theorem orderedDither_length (pixels : List ℕ) (w h : ℕ) :
    (orderedDither pixels w h).length = pixels.length := by
  simp [orderedDither]

/-- Element description of `orderedDither` at a pixel coordinate. -/
theorem orderedDither_getD (pixels : List ℕ) (w h x y c : ℕ)
    (hx : x < w) (hy : y < h) (hc : c < 4)
    (hlen : pixels.length = w * h * 4) :
    (orderedDither pixels w h).getD ((y * w + x) * 4 + c) 0 =
      if c = 3 then pixels.getD ((y * w + x) * 4 + c) 0
      else clamp8 ((pixels.getD ((y * w + x) * 4 + c) 0 : ℚ) + bayerThreshold x y) := by
  have hw : 0 < w := lt_of_le_of_lt (Nat.zero_le x) hx
  have hyx : y * w + x < h * w := by
    calc y * w + x < y * w + w := by omega
    _ = (y + 1) * w := by ring
    _ ≤ h * w := Nat.mul_le_mul_right w hy
  have hcomm : w * h = h * w := Nat.mul_comm w h
  have hi : (y * w + x) * 4 + c < w * h * 4 := by omega
  have hilen : (y * w + x) * 4 + c < pixels.length := by omega
  have hdiv : ((y * w + x) * 4 + c) / 4 = y * w + x := by omega
  have hmod : ((y * w + x) * 4 + c) % 4 = c := by omega
  have hxmod : (y * w + x) % w = x := by
    rw [Nat.add_comm, Nat.add_mul_mod_self_right]
    exact Nat.mod_eq_of_lt hx
  have hydiv : (y * w + x) / w = y := by
    rw [Nat.add_comm, Nat.add_mul_div_right _ _ hw, Nat.div_eq_of_lt hx]
    omega
  unfold orderedDither
  rw [List.getD_eq_getElem _ _ (by simpa using hilen)]
  simp only [List.getElem_map, List.getElem_range]
  rw [if_pos hi, hmod, hdiv, hxmod, hydiv]

/-- C1: the ordered-dither pre-pass preserves the buffer length and, at every
pixel (x,y), maps each of the R, G, B channels to the 8-bit clamp of
`channel + (BAYER_4X4[y%4][x%4]/16 - 0.5) * 24` and passes the alpha channel
through unchanged. -/
theorem ordered_prepass_channel_formula (pixels : List ℕ) (w h x y : ℕ)
    (hx : x < w) (hy : y < h) (hlen : pixels.length = w * h * 4) :
    (orderedDither pixels w h).length = pixels.length ∧
    (∀ c, c < 3 →
      (orderedDither pixels w h).getD ((y * w + x) * 4 + c) 0 =
        clamp8 ((pixels.getD ((y * w + x) * 4 + c) 0 : ℚ) + (bayerAt x y / 16 - 1/2) * 24)) ∧
    (orderedDither pixels w h).getD ((y * w + x) * 4 + 3) 0 =
      pixels.getD ((y * w + x) * 4 + 3) 0 := by
  refine ⟨orderedDither_length pixels w h, ?_, ?_⟩
  · intro c hc
    rw [orderedDither_getD pixels w h x y c hx hy (by omega) hlen]
    rw [if_neg (by omega)]
    rfl
  · rw [orderedDither_getD pixels w h x y 3 hx hy (by omega) hlen, if_pos rfl]

theorem ordered_prepass_channel_formula_witness :
    ((0 : ℕ) < 1 ∧ ([10, 200, 255, 77] : List ℕ).length = 1 * 1 * 4) ∧
    (orderedDither [10, 200, 255, 77] 1 1).getD ((0 * 1 + 0) * 4 + 1) 0 =
      clamp8 (((200 : ℕ) : ℚ) + (bayerAt 0 0 / 16 - 1/2) * 24) ∧
    (orderedDither [10, 200, 255, 77] 1 1).getD ((0 * 1 + 0) * 4 + 3) 0 = 77 := by
  refine ⟨⟨by decide, by decide⟩, ?_, ?_⟩
  · exact (ordered_prepass_channel_formula [10, 200, 255, 77] 1 1 0 0
      (by decide) (by decide) (by decide)).2.1 1 (by decide)
  · exact (ordered_prepass_channel_formula [10, 200, 255, 77] 1 1 0 0
      (by decide) (by decide) (by decide)).2.2

/-- `DitherMode` from `ditherClient.ts`. -/
inductive DitherMode
  | ordered
  | diffusion
  | none
deriving DecidableEq, Repr

/-- `ColorReductionMode` from `ditherClient.ts`. -/
inductive ColorReductionMode
  | perceptual
  | perceptualPlus
  | selective
  | adaptive
  | restrictive
deriving DecidableEq, Repr

/-- The `PaletteQuantization` values of the `image-q` library used by the
source. -/
inductive PaletteQuantization
  | neuquant
  | neuquantFloat
  | rgbquant
  | wuquant
deriving DecidableEq, Repr

/-- The `ImageQuantization` values of the `image-q` library used by the
source. -/
inductive ImageQuantization
  | nearest
  | floydSteinberg
  | riemersma
deriving DecidableEq, Repr

/-- The `ColorDistanceFormula` values of the `image-q` library. -/
inductive ColorDistanceFormula
  | cie94Textiles
  | cie94GraphicArts
  | ciede2000
  | colorMetric
  | euclidean
  | euclideanBt709Noalpha
  | euclideanBt709
  | manhattan
  | manhattanBt709
  | manhattanNommyde
  | pngquant
deriving DecidableEq, Repr

/-- `DEFAULT_DISTANCE = 'euclidean-bt709'`. -/
def DEFAULT_DISTANCE : ColorDistanceFormula := .euclideanBt709

/-- `DITHER_ALGO = 'floyd-steinberg'`. -/
def DITHER_ALGO : ImageQuantization := .floydSteinberg

/-- `NEAREST_ALGO = 'nearest'`. -/
def NEAREST_ALGO : ImageQuantization := .nearest

/-- An RGBA point, as handled by the `image-q` utilities. -/
abbrev RGBAPoint := ℕ × ℕ × ℕ × ℕ

/-- `DitherClientOptions` from `ditherClient.ts`: `maxColors` is required,
the rest optional. -/
structure DitherClientOptions where
  maxColors : ℚ
  scale : Option ℚ := Option.none
  ditherMode : Option DitherMode := Option.none
  colorReduction : Option ColorReductionMode := Option.none
  colorDistanceFormula : Option ColorDistanceFormula := Option.none
deriving DecidableEq, Repr

/-- The configuration object returned by `resolveColorReduction`: a palette
quantization and, for `'perceptual'` only, a distance-formula override. -/
structure ReductionConfig where
  paletteQuantization : PaletteQuantization
  colorDistanceFormula : Option ColorDistanceFormula := Option.none
deriving DecidableEq, Repr

/-- `resolveColorReduction(mode)` from `ditherClient.ts`. -/
def resolveColorReduction : ColorReductionMode → ReductionConfig
  | .perceptualPlus => { paletteQuantization := .neuquantFloat }
  | .perceptual =>
      { paletteQuantization := .wuquant
        colorDistanceFormula := some .ciede2000 }
  | .selective => { paletteQuantization := .neuquant }
  | .restrictive => { paletteQuantization := .rgbquant }
  | .adaptive => { paletteQuantization := .wuquant }

/-- Target dimensions computed by `resizeImageData`:
`targetWidth = Math.max(1, Math.round(width * scale))` and likewise for the
height.  The actual resampling onto the target canvas is a host primitive. -/
def resizeDims (width height : ℕ) (scale : ℚ) : ℕ × ℕ :=
  (max 1 (jsRound ((width : ℚ) * scale)).toNat,
   max 1 (jsRound ((height : ℚ) * scale)).toNat)

/-- Options record passed to `buildPaletteSync` by the client pipeline. -/
structure BuildPaletteRequest where
  colors : ℕ
  paletteQuantization : PaletteQuantization
  colorDistanceFormula : ColorDistanceFormula
deriving DecidableEq, Repr

/-- Options record passed to `applyPaletteSync`. -/
structure ApplyPaletteRequest where
  colorDistanceFormula : ColorDistanceFormula
  imageQuantization : ImageQuantization
deriving DecidableEq, Repr

/-- The host/library services the client pipeline calls: canvas resampling
(`drawImage` + `getImageData`) and the `image-q` palette builder and mapper.
Each is an explicit function so that the pipeline embedding stays a pure
function of its inputs and these services. -/
structure HostServices where
  resample : List ℕ → ℕ → ℕ → ℕ → ℕ → List ℕ
  buildPalette : List ℕ → ℕ → ℕ → BuildPaletteRequest → List RGBAPoint
  applyPalette : List ℕ → ℕ → ℕ → List RGBAPoint → ApplyPaletteRequest → List ℕ

/-- The observable effects of one `applyPaletteDitherClient` run: the
resolved configuration, the buffers flowing between the stages, the
arguments handed to the palette builder and mapper, and the final output. -/
structure ClientRun where
  scaleUsed : ℚ
  maxColorsUsed : ℕ
  ditherModeUsed : DitherMode
  colorReductionUsed : ColorReductionMode
  distanceUsed : ColorDistanceFormula
  width : ℕ
  height : ℕ
  resized : List ℕ
  paletteSource : List ℕ
  buildRequest : BuildPaletteRequest
  palette : List RGBAPoint
  applyRequest : ApplyPaletteRequest
  output : List ℕ

/-- `applyPaletteDitherClient(imageData, options)` from `ditherClient.ts`
(the PNG-encoding tail, a host service, is outside the returned run):

* `scale = clamp(options.scale ?? 1, 0.1, 1)`
* `maxColors = clamp(Math.round(options.maxColors), 2, 256)`
* `ditherMode = options.ditherMode ?? 'ordered'`
* `colorReduction = options.colorReduction ?? 'perceptual'`
* `colorDistanceFormula = options.colorDistanceFormula ??
  reductionConfig.colorDistanceFormula ?? DEFAULT_DISTANCE`
* resize, optional ordered pre-pass, `buildPaletteSync` and
  `applyPaletteSync` over the same point container. -/
def applyPaletteDitherClient (host : HostServices) (pixels : List ℕ)
    (srcWidth srcHeight : ℕ) (options : DitherClientOptions) : ClientRun :=
  let scale := jsClamp (options.scale.getD 1) (1/10) 1
  let maxColors := (min 256 (max 2 (jsRound options.maxColors))).toNat
  let ditherMode := options.ditherMode.getD .ordered
  let colorReduction := options.colorReduction.getD .perceptual
  let reductionConfig := resolveColorReduction colorReduction
  let colorDistanceFormula :=
    (options.colorDistanceFormula.or reductionConfig.colorDistanceFormula).getD
      DEFAULT_DISTANCE
  let dims := resizeDims srcWidth srcHeight scale
  let resized := host.resample pixels srcWidth srcHeight dims.1 dims.2
  let paletteSource :=
    if ditherMode = .ordered then orderedDither resized dims.1 dims.2 else resized
  let buildRequest : BuildPaletteRequest :=
    { colors := maxColors
      paletteQuantization := reductionConfig.paletteQuantization
      colorDistanceFormula := colorDistanceFormula }
  let palette := host.buildPalette paletteSource dims.1 dims.2 buildRequest
  let applyRequest : ApplyPaletteRequest :=
    { colorDistanceFormula := colorDistanceFormula
      imageQuantization := if ditherMode = .diffusion then DITHER_ALGO else NEAREST_ALGO }
  let output := host.applyPalette paletteSource dims.1 dims.2 palette applyRequest
  { scaleUsed := scale
    maxColorsUsed := maxColors
    ditherModeUsed := ditherMode
    colorReductionUsed := colorReduction
    distanceUsed := colorDistanceFormula
    width := dims.1
    height := dims.2
    resized := resized
    paletteSource := paletteSource
    buildRequest := buildRequest
    palette := palette
    applyRequest := applyRequest
    output := output }

/-- C6: the quantization algorithm selected for each color-reduction mode:
perceptual → wuquant, perceptual-plus → neuquant-float,
selective → neuquant, adaptive → wuquant, restrictive → rgbquant. -/
theorem color_reduction_algorithm_table :
    (resolveColorReduction .perceptual).paletteQuantization = .wuquant ∧
    (resolveColorReduction .perceptualPlus).paletteQuantization = .neuquantFloat ∧
    (resolveColorReduction .selective).paletteQuantization = .neuquant ∧
    (resolveColorReduction .adaptive).paletteQuantization = .wuquant ∧
    (resolveColorReduction .restrictive).paletteQuantization = .rgbquant :=
  ⟨rfl, rfl, rfl, rfl, rfl⟩

/-- C4: for source dimensions ≥ 1 and a clamped scale factor, the resampler's
target dimensions are `max(1, round(srcDim * scale))` — rounding, not
truncation — and both are at least 1. -/
theorem resize_dims_round_and_floor (w h : ℕ) (scale : ℚ)
    (hw : 1 ≤ w) (hh : 1 ≤ h) (hlo : 1/10 ≤ scale) (hhi : scale ≤ 1) :
    resizeDims w h scale =
      (max 1 (jsRound ((w : ℚ) * scale)).toNat,
       max 1 (jsRound ((h : ℚ) * scale)).toNat) ∧
    1 ≤ (resizeDims w h scale).1 ∧ 1 ≤ (resizeDims w h scale).2 :=
  ⟨rfl, le_max_left 1 _, le_max_left 1 _⟩

theorem resize_dims_round_and_floor_witness :
    ((1 : ℕ) ≤ 3 ∧ (1 : ℕ) ≤ 2 ∧ (1 : ℚ)/10 ≤ 3/10 ∧ (3 : ℚ)/10 ≤ 1) ∧
    (1 ≤ (resizeDims 3 2 (3/10)).1 ∧ 1 ≤ (resizeDims 3 2 (3/10)).2) ∧
    resizeDims 3 2 (3/10) = (1, 1) := by
  refine ⟨⟨by norm_num, by norm_num, by norm_num, by norm_num⟩, ?_, ?_⟩
  · exact (resize_dims_round_and_floor 3 2 (3/10) (by norm_num) (by norm_num)
      (by norm_num) (by norm_num)).2
  · have : jsRound ((3 : ℚ) * (3/10)) = 1 ∧ jsRound ((2 : ℚ) * (3/10)) = 1 := by
      constructor <;> norm_num [jsRound]
    simp [resizeDims, this.1, this.2]

/-- C5: the client pipeline resamples first, applies the ordered pre-bias to
the resampled buffer exactly when `ditherMode = 'ordered'`, builds the
palette over that same buffer, maps the very same buffer to the palette, and
uses Floyd–Steinberg error diffusion at mapping time exactly when
`ditherMode = 'diffusion'` (nearest-color otherwise). -/
theorem pipeline_stage_sequencing (host : HostServices) (pixels : List ℕ)
    (w h : ℕ) (options : DitherClientOptions) :
    (applyPaletteDitherClient host pixels w h options).resized =
      host.resample pixels w h
        (applyPaletteDitherClient host pixels w h options).width
        (applyPaletteDitherClient host pixels w h options).height ∧
    (applyPaletteDitherClient host pixels w h options).paletteSource =
      (if options.ditherMode.getD .ordered = .ordered then
        orderedDither (applyPaletteDitherClient host pixels w h options).resized
          (applyPaletteDitherClient host pixels w h options).width
          (applyPaletteDitherClient host pixels w h options).height
      else (applyPaletteDitherClient host pixels w h options).resized) ∧
    (applyPaletteDitherClient host pixels w h options).palette =
      host.buildPalette (applyPaletteDitherClient host pixels w h options).paletteSource
        (applyPaletteDitherClient host pixels w h options).width
        (applyPaletteDitherClient host pixels w h options).height
        (applyPaletteDitherClient host pixels w h options).buildRequest ∧
    (applyPaletteDitherClient host pixels w h options).output =
      host.applyPalette (applyPaletteDitherClient host pixels w h options).paletteSource
        (applyPaletteDitherClient host pixels w h options).width
        (applyPaletteDitherClient host pixels w h options).height
        (applyPaletteDitherClient host pixels w h options).palette
        (applyPaletteDitherClient host pixels w h options).applyRequest ∧
    (applyPaletteDitherClient host pixels w h options).applyRequest.imageQuantization =
      (if options.ditherMode.getD .ordered = .diffusion then
        ImageQuantization.floydSteinberg else ImageQuantization.nearest) :=
  ⟨rfl, rfl, rfl, rfl, rfl⟩

/-- A concrete instantiation of the host services, used to evaluate the
pipeline on concrete inputs: identity resampling, an empty built palette,
identity mapping. -/
def hostId : HostServices where
  resample := fun p _ _ _ _ => p
  buildPalette := fun _ _ _ _ => []
  applyPalette := fun p _ _ _ _ => p

/-- C7, counterexample: with `colorReduction = 'perceptual'` and a
caller-specified distance formula, the resolved distance formula is the
caller's one, not CIEDE2000 — the caller's choice takes precedence over the
perceptual mode's override. -/
theorem perceptual_distance_override_counterexample :
    (applyPaletteDitherClient hostId [] 1 1
      { maxColors := 16
        colorReduction := some .perceptual
        colorDistanceFormula := some .euclidean }).distanceUsed =
      ColorDistanceFormula.euclidean ∧
    ColorDistanceFormula.euclidean ≠ ColorDistanceFormula.ciede2000 :=
  ⟨rfl, by decide⟩

/-- C7 as amended: both palette building and mapping use one resolved
distance formula; it is the caller-specified formula when given, otherwise
CIEDE2000 when the (defaulted) reduction mode is `'perceptual'`, otherwise
the BT.709-weighted Euclidean default. -/
theorem distance_formula_resolution (host : HostServices) (pixels : List ℕ)
    (w h : ℕ) (options : DitherClientOptions) :
    (applyPaletteDitherClient host pixels w h options).buildRequest.colorDistanceFormula =
      (applyPaletteDitherClient host pixels w h options).distanceUsed ∧
    (applyPaletteDitherClient host pixels w h options).applyRequest.colorDistanceFormula =
      (applyPaletteDitherClient host pixels w h options).distanceUsed ∧
    (applyPaletteDitherClient host pixels w h options).distanceUsed =
      (match options.colorDistanceFormula with
        | some f => f
        | Option.none =>
          if options.colorReduction.getD .perceptual = .perceptual then
            ColorDistanceFormula.ciede2000
          else DEFAULT_DISTANCE) := by
  refine ⟨rfl, rfl, ?_⟩
  rcases options with ⟨mc, sc, dm, cr, cdf⟩
  cases cdf with
  | some f => rfl
  | none =>
    cases cr with
    | none => rfl
    | some mode => cases mode <;> rfl

/-- C3 (amended, client/worker side): the client pipeline clamps `maxColors`
into [2,256] and `scale` into [0.1,1] before any later stage runs; the
clamped color count is exactly what reaches the palette builder and the
output dimensions are those computed from the clamped scale. -/
theorem client_clamps_parameters (host : HostServices) (pixels : List ℕ)
    (w h : ℕ) (options : DitherClientOptions) :
    2 ≤ (applyPaletteDitherClient host pixels w h options).maxColorsUsed ∧
    (applyPaletteDitherClient host pixels w h options).maxColorsUsed ≤ 256 ∧
    (applyPaletteDitherClient host pixels w h options).buildRequest.colors =
      (applyPaletteDitherClient host pixels w h options).maxColorsUsed ∧
    1/10 ≤ (applyPaletteDitherClient host pixels w h options).scaleUsed ∧
    (applyPaletteDitherClient host pixels w h options).scaleUsed ≤ 1 ∧
    ((applyPaletteDitherClient host pixels w h options).width,
     (applyPaletteDitherClient host pixels w h options).height) =
      resizeDims w h (applyPaletteDitherClient host pixels w h options).scaleUsed := by
  refine ⟨?_, ?_, rfl, ?_, ?_, rfl⟩
  · show 2 ≤ (min 256 (max 2 (jsRound options.maxColors))).toNat
    omega
  · show (min 256 (max 2 (jsRound options.maxColors))).toNat ≤ 256
    omega
  · exact le_min (by norm_num) (le_max_left _ _)
  · exact min_le_left _ _

/-- C8: the pipeline is a deterministic function of the input buffer and the
configuration — two invocations against the same host services with equal
inputs produce equal runs, in particular byte-identical output buffers. -/
theorem process_deterministic (host : HostServices)
    (pixels₁ pixels₂ : List ℕ) (w₁ w₂ h₁ h₂ : ℕ)
    (options₁ options₂ : DitherClientOptions)
    (hp : pixels₁ = pixels₂) (hw : w₁ = w₂) (hh : h₁ = h₂)
    (ho : options₁ = options₂) :
    applyPaletteDitherClient host pixels₁ w₁ h₁ options₁ =
      applyPaletteDitherClient host pixels₂ w₂ h₂ options₂ := by
  subst hp hw hh ho; rfl

theorem process_deterministic_witness :
    (([10, 20, 30, 255] : List ℕ) = [10, 20, 30, 255] ∧
      (1 : ℕ) = 1 ∧
      ({ maxColors := 4, ditherMode := some .diffusion } : DitherClientOptions) =
        { maxColors := 4, ditherMode := some .diffusion }) ∧
    applyPaletteDitherClient hostId [10, 20, 30, 255] 1 1
        { maxColors := 4, ditherMode := some .diffusion } =
      applyPaletteDitherClient hostId [10, 20, 30, 255] 1 1
        { maxColors := 4, ditherMode := some .diffusion } :=
  ⟨⟨rfl, rfl, rfl⟩,
    process_deterministic hostId [10, 20, 30, 255] [10, 20, 30, 255] 1 1 1 1
      { maxColors := 4, ditherMode := some .diffusion }
      { maxColors := 4, ditherMode := some .diffusion } rfl rfl rfl rfl⟩

namespace Worker

/-- `BAYER_4X4` as declared in the worker module. -/
def BAYER_4X4 : List (List ℕ) :=
  [[0, 8, 2, 10], [12, 4, 14, 6], [3, 11, 1, 9], [15, 7, 13, 5]]

/-- The worker module's own `clamp`. -/
def clamp (value lo hi : ℚ) : ℚ := min hi (max lo value)

/-- The worker module's own `clamp8`. -/
def clamp8 (value : ℚ) : ℕ := (max 0 (min 255 (jsRound value))).toNat

/-- `orderedDither` as declared in the worker module (same index-wise
reading as the client embedding). -/
def orderedDither (pixels : List ℕ) (width height : ℕ) : List ℕ :=
  (List.range pixels.length).map fun i =>
    if i < width * height * 4 then
      if i % 4 = 3 then pixels.getD i 0
      else
        Worker.clamp8 ((pixels.getD i 0 : ℚ) +
          (((Worker.BAYER_4X4.getD (i / 4 / width % 4) []).getD (i / 4 % width % 4) 0 : ℕ) / 16 - 1/2) * 24)
    else 0

/-- `resolveColorReduction` as declared in the worker module. -/
def resolveColorReduction : ColorReductionMode → ReductionConfig
  | .perceptualPlus => { paletteQuantization := .neuquantFloat }
  | .perceptual =>
      { paletteQuantization := .wuquant
        colorDistanceFormula := some .ciede2000 }
  | .selective => { paletteQuantization := .neuquant }
  | .restrictive => { paletteQuantization := .rgbquant }
  | .adaptive => { paletteQuantization := .wuquant }

/-- Target dimensions of the worker's `resizeImageData` (OffscreenCanvas
resampling is the host primitive). -/
def resizeDims (width height : ℕ) (scale : ℚ) : ℕ × ℕ :=
  (max 1 (jsRound ((width : ℚ) * scale)).toNat,
   max 1 (jsRound ((height : ℚ) * scale)).toNat)

/-- `DitherWorkerOptions` from the worker module. -/
structure DitherWorkerOptions where
  maxColors : ℚ
  scale : Option ℚ := Option.none
  ditherMode : Option DitherMode := Option.none
  colorReduction : Option ColorReductionMode := Option.none
  colorDistanceFormula : Option ColorDistanceFormula := Option.none
deriving DecidableEq, Repr

/-- The processing body of the worker's `onmessage` handler (the
blob-encoding and `postMessage` tail, host services, are outside the
returned run). -/
def processMessage (host : HostServices) (pixels : List ℕ)
    (srcWidth srcHeight : ℕ) (options : DitherWorkerOptions) : ClientRun :=
  let scale := Worker.clamp (options.scale.getD 1) (1/10) 1
  let maxColors := (min 256 (max 2 (jsRound options.maxColors))).toNat
  let ditherMode := options.ditherMode.getD .ordered
  let colorReduction := options.colorReduction.getD .perceptual
  let reductionConfig := Worker.resolveColorReduction colorReduction
  let colorDistanceFormula :=
    (options.colorDistanceFormula.or reductionConfig.colorDistanceFormula).getD
      DEFAULT_DISTANCE
  let dims := Worker.resizeDims srcWidth srcHeight scale
  let resized := host.resample pixels srcWidth srcHeight dims.1 dims.2
  let paletteSource :=
    if ditherMode = .ordered then Worker.orderedDither resized dims.1 dims.2 else resized
  let buildRequest : BuildPaletteRequest :=
    { colors := maxColors
      paletteQuantization := reductionConfig.paletteQuantization
      colorDistanceFormula := colorDistanceFormula }
  let palette := host.buildPalette paletteSource dims.1 dims.2 buildRequest
  let applyRequest : ApplyPaletteRequest :=
    { colorDistanceFormula := colorDistanceFormula
      imageQuantization := if ditherMode = .diffusion then DITHER_ALGO else NEAREST_ALGO }
  let output := host.applyPalette paletteSource dims.1 dims.2 palette applyRequest
  { scaleUsed := scale
    maxColorsUsed := maxColors
    ditherModeUsed := ditherMode
    colorReductionUsed := colorReduction
    distanceUsed := colorDistanceFormula
    width := dims.1
    height := dims.2
    resized := resized
    paletteSource := paletteSource
    buildRequest := buildRequest
    palette := palette
    applyRequest := applyRequest
    output := output }

end Worker

/-- C10: the foreground client pipeline and the background worker pipeline
are equivalent — their ordered-dither pre-pass, color-reduction selection,
parameter clamping, dimension computation, and whole processing runs
(given the same resampling/palette host services) coincide, so the two
produce identical quantized output. -/
theorem worker_client_equivalence :
    (∀ pixels width height, Worker.orderedDither pixels width height =
      orderedDither pixels width height) ∧
    (∀ mode, Worker.resolveColorReduction mode = resolveColorReduction mode) ∧
    (∀ value lo hi, Worker.clamp value lo hi = jsClamp value lo hi) ∧
    (∀ width height scale, Worker.resizeDims width height scale =
      resizeDims width height scale) ∧
    (∀ host pixels width height (options : Worker.DitherWorkerOptions),
      Worker.processMessage host pixels width height options =
        applyPaletteDitherClient host pixels width height
          { maxColors := options.maxColors
            scale := options.scale
            ditherMode := options.ditherMode
            colorReduction := options.colorReduction
            colorDistanceFormula := options.colorDistanceFormula }) :=
  ⟨fun _ _ _ => rfl,
   fun mode => by cases mode <;> rfl,
   fun _ _ _ => rfl,
   fun _ _ _ => rfl,
   fun _ _ _ _ options => by
     cases options
     rfl⟩

/-- `PaletteColor` from `dither.ts`: an RGB triple with optional alpha,
channels being 8-bit color components. -/
structure PaletteColor where
  r : ℕ
  g : ℕ
  b : ℕ
  a : Option ℕ := Option.none
deriving DecidableEq, Repr

/-- `DitherOptions` from `dither.ts` (the `resize` options feed the external
`sharp` decode/resize service, which the embedding abstracts by taking the
decoded raw buffer and its dimensions directly). -/
structure DitherOptions where
  maxColors : Option ℚ := Option.none
  palette : Option (List PaletteColor) := Option.none
  dither : Option Bool := Option.none
  colorDistanceFormula : Option ColorDistanceFormula := Option.none
deriving DecidableEq, Repr

/-- `createManualPalette(colors)` from `dither.ts`:
`const [r, g, b, a = 255] = color;
palette.add(utils.Point.createByRGBA(clamp8(r), clamp8(g), clamp8(b), clamp8(a)))`.
The final `palette.sort()` is an `image-q` library call and is a parameter
of the batch embedding. -/
def createManualPalette (colors : List PaletteColor) : List RGBAPoint :=
  colors.map fun c =>
    (clamp8 (c.r : ℚ), clamp8 (c.g : ℚ), clamp8 (c.b : ℚ), clamp8 ((c.a.getD 255 : ℕ) : ℚ))

/-- Group a raw RGBA byte buffer into points, as
`utils.PointContainer.fromUint8Array` does. -/
def toPoints : List ℕ → List RGBAPoint
  | r :: g :: b :: a :: rest => (r, g, b, a) :: toPoints rest
  | _ => []

/-- Modelled from the spec: the nearest-color palette mapper used when
`imageQuantization = 'nearest'` lives in the external `image-q` library, not
in this repository.  Per §4.4, each pixel is assigned the closest palette
entry under the configured distance formula, with a stable tie-break (the
earliest entry attaining the minimum distance). -/
def nearestColor (dist : RGBAPoint → RGBAPoint → ℚ) (palette : List RGBAPoint)
    (p : RGBAPoint) : RGBAPoint :=
  match palette with
  | [] => p
  | q :: rest => rest.foldl (fun best cand => if dist cand p < dist best p then cand else best) q

/-- Modelled from the spec: nearest-color mapping of a whole buffer (§4.4,
`ditherMode` without error diffusion). -/
def mapNearest (dist : RGBAPoint → RGBAPoint → ℚ) (palette : List RGBAPoint)
    (points : List RGBAPoint) : List RGBAPoint :=
  points.map (nearestColor dist palette)

/-- The external services the batch pipeline calls: `utils.Palette.sort`,
`buildPaletteSync` (with `'wuquant'` quantization), the distance formulas,
and the `'floyd-steinberg'` error-diffusion mapper — all from `image-q`. -/
structure BatchHost where
  sortPalette : List RGBAPoint → List RGBAPoint
  buildPalette : List RGBAPoint → ℚ → ColorDistanceFormula → List RGBAPoint
  distanceOf : ColorDistanceFormula → RGBAPoint → RGBAPoint → ℚ
  diffuse : List RGBAPoint → List RGBAPoint → ColorDistanceFormula → List RGBAPoint

/-- The observable effects of one successful `applyPaletteDither` run. -/
structure BatchRun where
  palette : List RGBAPoint
  buildColors : Option ℚ
  distance : ColorDistanceFormula
  imageQuantization : ImageQuantization
  output : List RGBAPoint
  width : ℕ
  height : ℕ

/-- `options.palette && options.palette.length < 2` (an array, even empty,
is truthy in JavaScript). -/
def paletteSuppliedTooSmall (options : DitherOptions) : Bool :=
  match options.palette with
  | some p => p.length < 2
  | Option.none => false

/-- The truthiness of `options.palette?.length`. -/
def paletteLengthTruthy (options : DitherOptions) : Bool :=
  match options.palette with
  | some p => p.length != 0
  | Option.none => false

/-- The truthiness of `!options.maxColors || options.maxColors < 2`
(`undefined` and `0` are falsy). -/
def maxColorsFalsyOrSmall (options : DitherOptions) : Bool :=
  match options.maxColors with
  | some m => m = 0 || m < 2
  | Option.none => true

/-- `applyPaletteDither(input, options)` from `dither.ts`: validation, then
palette selection (manual palette when `options.palette?.length` is truthy,
otherwise `buildPaletteSync` with `colors: options.maxColors` and
`'wuquant'`), then `applyPaletteSync` with `'nearest'` when
`options.dither === false` and `'floyd-steinberg'` otherwise.  The `sharp`
decode/resize front end and PNG-encode tail are external; the embedding
takes the decoded raw buffer and dimensions.  `buildColors` records the
`colors` argument handed to `buildPaletteSync` (none when the manual
palette was used). -/
def applyPaletteDither (host : BatchHost) (data : List ℕ) (width height : ℕ)
    (options : DitherOptions) : Except String BatchRun :=
  if paletteSuppliedTooSmall options then
    .error "palette must contain at least 2 colors"
  else if !paletteLengthTruthy options && maxColorsFalsyOrSmall options then
    .error "maxColors must be at least 2 when palette is not provided"
  else
    let points := toPoints data
    let colorDistanceFormula := options.colorDistanceFormula.getD DEFAULT_DISTANCE
    let manual := paletteLengthTruthy options
    let palette :=
      if manual then host.sortPalette (createManualPalette (options.palette.getD []))
      else host.buildPalette points (options.maxColors.getD 0) colorDistanceFormula
    let imageQuantization :=
      if options.dither = some false then NEAREST_ALGO else DITHER_ALGO
    let output :=
      if imageQuantization = NEAREST_ALGO then
        mapNearest (host.distanceOf colorDistanceFormula) palette points
      else host.diffuse points palette colorDistanceFormula
    .ok
      { palette := palette
        buildColors := if manual then Option.none else some (options.maxColors.getD 0)
        distance := colorDistanceFormula
        imageQuantization := imageQuantization
        output := output
        width := width
        height := height }

/-- Whether a batch run failed. -/
def isError : Except String BatchRun → Bool
  | .error _ => true
  | .ok _ => false

/-- The `colors` argument the run handed to `buildPaletteSync`, if any. -/
def buildColorsOf : Except String BatchRun → Option ℚ
  | .ok run => run.buildColors
  | .error _ => Option.none

/-- The palette of a successful run. -/
def paletteOf : Except String BatchRun → List RGBAPoint
  | .ok run => run.palette
  | .error _ => []

/-- The output buffer of a successful run. -/
def outputOf : Except String BatchRun → List RGBAPoint
  | .ok run => run.output
  | .error _ => []

/-- A concrete instantiation of the batch services, used to evaluate the
batch pipeline on concrete inputs: identity palette sort, empty built
palette, the zero distance formula, identity diffusion. -/
def batchHostId : BatchHost where
  sortPalette := fun l => l
  buildPalette := fun _ _ _ => []
  distanceOf := fun _ _ _ => 0
  diffuse := fun p _ _ => p

/-- C2: the batch entry point fails (producing no run) exactly when a manual
palette with fewer than 2 entries is supplied, or no manual palette is given
and `maxColors < 2`. -/
theorem invalid_configuration_iff (host : BatchHost) (data : List ℕ)
    (w h : ℕ) (options : DitherOptions) (m : ℚ)
    (hm : options.maxColors = some m) :
    isError (applyPaletteDither host data w h options) = true ↔
      (∃ p, options.palette = some p ∧ p.length < 2) ∨
      (options.palette = Option.none ∧ m < 2) := by
  rcases options with ⟨mc, pal, d, cdf⟩
  simp only [Option.some.injEq] at hm
  cases hm
  cases pal with
  | none =>
    by_cases h2 : m < 2
    · have hL : isError (applyPaletteDither host data w h
          ⟨some m, Option.none, d, cdf⟩) = true := by
        simp [applyPaletteDither, paletteSuppliedTooSmall, paletteLengthTruthy,
          maxColorsFalsyOrSmall, isError, h2]
      simp [hL, h2]
    · have h0 : ¬ m = 0 := fun h => h2 (by rw [h]; norm_num)
      have hL : isError (applyPaletteDither host data w h
          ⟨some m, Option.none, d, cdf⟩) = false := by
        simp [applyPaletteDither, paletteSuppliedTooSmall, paletteLengthTruthy,
          maxColorsFalsyOrSmall, isError, h2, h0]
      simp [hL, h2]
  | some p =>
    by_cases hlen : p.length < 2
    · have hL : isError (applyPaletteDither host data w h
          ⟨some m, some p, d, cdf⟩) = true := by
        simp [applyPaletteDither, paletteSuppliedTooSmall, isError, hlen]
      simp only [hL, true_iff]
      exact Or.inl ⟨p, rfl, hlen⟩
    · have htruthy : (p.length != 0) = true := by
        simp only [bne_iff_ne, ne_eq]
        omega
      have hL : isError (applyPaletteDither host data w h
          ⟨some m, some p, d, cdf⟩) = false := by
        simp [applyPaletteDither, paletteSuppliedTooSmall, paletteLengthTruthy,
          isError, hlen, htruthy]
      simp only [hL, Bool.false_eq_true, false_iff]
      rintro (⟨q, hq, hqlen⟩ | ⟨hnone, _⟩)
      · simp only [Option.some.injEq] at hq
        cases hq
        omega
      · exact absurd hnone (by simp)

theorem invalid_configuration_iff_witness :
    (({ maxColors := some 1 } : DitherOptions).maxColors = some 1 ∧
      isError (applyPaletteDither batchHostId [] 4 2 { maxColors := some 1 }) = true) ∧
    (({ maxColors := some 16, palette := some [{ r := 0, g := 0, b := 0 }] } :
        DitherOptions).maxColors = some 16 ∧
      isError (applyPaletteDither batchHostId [] 4 2
        { maxColors := some 16, palette := some [{ r := 0, g := 0, b := 0 }] }) = true) :=
  ⟨⟨rfl,
    (invalid_configuration_iff batchHostId [] 4 2 { maxColors := some 1 } 1 rfl).mpr
      (Or.inr ⟨rfl, by norm_num⟩)⟩,
   ⟨rfl,
    (invalid_configuration_iff batchHostId [] 4 2
        { maxColors := some 16, palette := some [{ r := 0, g := 0, b := 0 }] } 16 rfl).mpr
      (Or.inl ⟨[{ r := 0, g := 0, b := 0 }], rfl, by norm_num⟩)⟩⟩

/-- C3, counterexample: the batch orchestrator `applyPaletteDither` accepts
`maxColors = 999` and passes it to the palette builder unclamped — the
out-of-range value does propagate into palette building on this entry
point. -/
theorem batch_maxcolors_unclamped_counterexample :
    isError (applyPaletteDither batchHostId [] 1 1 { maxColors := some 999 }) = false ∧
    buildColorsOf (applyPaletteDither batchHostId [] 1 1 { maxColors := some 999 }) =
      some 999 ∧
    ¬ ((999 : ℚ) ≤ 256) := by
  have h2 : ¬ ((999 : ℚ) < 2) := by norm_num
  refine ⟨?_, ?_, by norm_num⟩ <;>
    simp [applyPaletteDither, paletteSuppliedTooSmall, paletteLengthTruthy,
      maxColorsFalsyOrSmall, isError, buildColorsOf, h2]

/-- The RGBA value of a supplied palette entry, with the alpha default 255
for 3-tuples. -/
def rgbaOf (c : PaletteColor) : RGBAPoint := (c.r, c.g, c.b, c.a.getD 255)

theorem jsRound_natCast (n : ℕ) : jsRound (n : ℚ) = n := by
  unfold jsRound
  rw [Int.floor_eq_iff]
  constructor
  · push_cast
    linarith
  · push_cast
    linarith

theorem clamp8_natCast (n : ℕ) (hn : n ≤ 255) : clamp8 (n : ℚ) = n := by
  unfold clamp8
  rw [jsRound_natCast]
  omega

/-- For in-range entries, `createManualPalette` reproduces the supplied
RGBA values. -/
theorem createManualPalette_pair (c₁ c₂ : PaletteColor)
    (h₁ : c₁.r ≤ 255 ∧ c₁.g ≤ 255 ∧ c₁.b ≤ 255 ∧ c₁.a.getD 255 ≤ 255)
    (h₂ : c₂.r ≤ 255 ∧ c₂.g ≤ 255 ∧ c₂.b ≤ 255 ∧ c₂.a.getD 255 ≤ 255) :
    createManualPalette [c₁, c₂] = [rgbaOf c₁, rgbaOf c₂] := by
  obtain ⟨h₁r, h₁g, h₁b, h₁a⟩ := h₁
  obtain ⟨h₂r, h₂g, h₂b, h₂a⟩ := h₂
  simp [createManualPalette, rgbaOf, clamp8_natCast, h₁r, h₁g, h₁b, h₁a,
    h₂r, h₂g, h₂b, h₂a]

/-- The running best of the nearest-color fold stays inside
the candidate list extended with the initial best. -/
theorem nearest_fold_mem (dist : RGBAPoint → RGBAPoint → ℚ) (p : RGBAPoint) :
    ∀ (l : List RGBAPoint) (acc : RGBAPoint),
      l.foldl (fun best cand => if dist cand p < dist best p then cand else best) acc ∈
        acc :: l := by
  intro l
  induction l with
  | nil => intro acc; simp
  | cons z l ih =>
    intro acc
    simp only [List.foldl_cons]
    rcases List.mem_cons.mp (ih (if dist z p < dist acc p then z else acc)) with h1 | h1
    · rw [h1]
      by_cases hd : dist z p < dist acc p
      · simp [hd]
      · simp [hd]
    · exact List.mem_cons_of_mem _ (List.mem_cons_of_mem _ h1)

/-- The nearest palette entry is a palette entry (nonempty palette). -/
theorem nearestColor_mem (dist : RGBAPoint → RGBAPoint → ℚ)
    (palette : List RGBAPoint) (p : RGBAPoint) (hne : palette ≠ []) :
    nearestColor dist palette p ∈ palette := by
  match palette with
  | [] => exact absurd rfl hne
  | q :: rest =>
    exact nearest_fold_mem dist p rest q

/-- C9: with a manual 2-entry palette of in-range colors and dithering
disabled, the batch pipeline succeeds, bypasses the palette builder (the
used palette is the sorted manual palette, for any host palette builder),
and every output pixel's RGBA equals one of the two supplied entries. -/
theorem manual_palette_nearest_containment (host : BatchHost) (data : List ℕ)
    (w h : ℕ) (c₁ c₂ : PaletteColor) (options : DitherOptions)
    (hpal : options.palette = some [c₁, c₂])
    (hdither : options.dither = some false)
    (h₁ : c₁.r ≤ 255 ∧ c₁.g ≤ 255 ∧ c₁.b ≤ 255 ∧ c₁.a.getD 255 ≤ 255)
    (h₂ : c₂.r ≤ 255 ∧ c₂.g ≤ 255 ∧ c₂.b ≤ 255 ∧ c₂.a.getD 255 ≤ 255)
    (hsort : List.Perm (host.sortPalette (createManualPalette [c₁, c₂]))
      (createManualPalette [c₁, c₂])) :
    isError (applyPaletteDither host data w h options) = false ∧
    paletteOf (applyPaletteDither host data w h options) =
      host.sortPalette (createManualPalette [c₁, c₂]) ∧
    ∀ q ∈ outputOf (applyPaletteDither host data w h options),
      q = rgbaOf c₁ ∨ q = rgbaOf c₂ := by
  rcases options with ⟨mc, pal, d, cdf⟩
  simp only at hpal hdither
  subst hpal hdither
  have hrun : applyPaletteDither host data w h
      ⟨mc, some [c₁, c₂], some false, cdf⟩ =
    .ok
      { palette := host.sortPalette (createManualPalette [c₁, c₂])
        buildColors := Option.none
        distance := cdf.getD DEFAULT_DISTANCE
        imageQuantization := NEAREST_ALGO
        output := mapNearest (host.distanceOf (cdf.getD DEFAULT_DISTANCE))
          (host.sortPalette (createManualPalette [c₁, c₂])) (toPoints data)
        width := w
        height := h } := by
    simp [applyPaletteDither, paletteSuppliedTooSmall, paletteLengthTruthy,
      NEAREST_ALGO]
  refine ⟨by rw [hrun]; rfl, by rw [hrun]; rfl, ?_⟩
  intro q hq
  rw [hrun] at hq
  simp only [outputOf, mapNearest, List.mem_map] at hq
  obtain ⟨p, _, hqeq⟩ := hq
  have hne : host.sortPalette (createManualPalette [c₁, c₂]) ≠ [] := by
    intro hnil
    have := hsort.length_eq
    rw [hnil, createManualPalette_pair c₁ c₂ h₁ h₂] at this
    simp at this
  have hmem : q ∈ host.sortPalette (createManualPalette [c₁, c₂]) := by
    rw [← hqeq]
    exact nearestColor_mem _ _ _ hne
  have hmem' : q ∈ createManualPalette [c₁, c₂] := hsort.mem_iff.mp hmem
  rw [createManualPalette_pair c₁ c₂ h₁ h₂] at hmem'
  simpa using hmem'

/-- Concrete first manual palette entry for evaluation. -/
def batchC1 : PaletteColor := { r := 0, g := 0, b := 0, a := some 255 }

/-- Concrete second manual palette entry (3-tuple, alpha defaulted). -/
def batchC2 : PaletteColor := { r := 255, g := 255, b := 255 }

/-- Concrete decoded 2×1 RGBA buffer for evaluation. -/
def batchData : List ℕ := [0, 0, 0, 255, 250, 250, 250, 255]

/-- Concrete batch options: manual 2-entry palette, dithering disabled. -/
def batchOptions : DitherOptions :=
  { palette := some [batchC1, batchC2], dither := some false }

theorem manual_palette_nearest_containment_witness :
    (batchOptions.palette = some [batchC1, batchC2] ∧
     batchOptions.dither = some false ∧
     (batchC1.r ≤ 255 ∧ batchC1.g ≤ 255 ∧ batchC1.b ≤ 255 ∧ batchC1.a.getD 255 ≤ 255) ∧
     (batchC2.r ≤ 255 ∧ batchC2.g ≤ 255 ∧ batchC2.b ≤ 255 ∧ batchC2.a.getD 255 ≤ 255) ∧
     List.Perm (batchHostId.sortPalette (createManualPalette [batchC1, batchC2]))
       (createManualPalette [batchC1, batchC2])) ∧
    isError (applyPaletteDither batchHostId batchData 2 1 batchOptions) = false ∧
    ((0, 0, 0, 255) : RGBAPoint) ∈
      outputOf (applyPaletteDither batchHostId batchData 2 1 batchOptions) ∧
    (((0, 0, 0, 255) : RGBAPoint) = rgbaOf batchC1 ∨
      ((0, 0, 0, 255) : RGBAPoint) = rgbaOf batchC2) := by
  have thm := manual_palette_nearest_containment batchHostId batchData 2 1
    batchC1 batchC2 batchOptions rfl rfl
    ⟨by decide, by decide, by decide, by decide⟩
    ⟨by decide, by decide, by decide, by decide⟩
    (List.Perm.refl _)
  have hpalette : createManualPalette [batchC1, batchC2] =
      [(0, 0, 0, 255), (255, 255, 255, 255)] := by
    have h0 := clamp8_natCast 0 (by norm_num)
    have h255 := clamp8_natCast 255 (by norm_num)
    simp [createManualPalette, batchC1, batchC2] at h0 h255 ⊢
    simp [h0, h255]
  have hmem : ((0, 0, 0, 255) : RGBAPoint) ∈
      outputOf (applyPaletteDither batchHostId batchData 2 1 batchOptions) := by
    have hout : outputOf (applyPaletteDither batchHostId batchData 2 1 batchOptions) =
        [(0, 0, 0, 255), (0, 0, 0, 255)] := by
      simp [applyPaletteDither, paletteSuppliedTooSmall, paletteLengthTruthy,
        batchOptions, batchData, outputOf, mapNearest, nearestColor, toPoints,
        batchHostId, hpalette, NEAREST_ALGO]
    rw [hout]
    simp
  exact ⟨⟨rfl, rfl, ⟨by decide, by decide, by decide, by decide⟩,
    ⟨by decide, by decide, by decide, by decide⟩, List.Perm.refl _⟩,
    thm.1, hmem, thm.2.2 _ hmem⟩
